import Mathlib

/-!
Shallow embedding of the channel-monitor Telegram bot (src/bot.py).

The bot's persistent state (PostgreSQL tables config / channels /
channel_groups) is modelled as association lists inside BotState; the
outbound Telegram transport is modelled as an oracle (Transport) giving,
for each channel id, whether a send / delete / copy succeeds and the
error text raised on failure.  The side effects that the spec's claims
talk about (sends, status updates, delete attempts, alert dispatches,
log lines) are recorded as an explicit event list.  Python's int(...)
is modelled as an Option-valued parser (None = ValueError), and the
try/except blocks of the source become matches on that Option or on an
Except value.
-/

set_option maxRecDepth 8000

/-- Whitespace as stripped by Python's str.strip (ASCII subset). -/
def isSpaceChar (c : Char) : Bool :=
  c = ' ' || c = '\t' || c = '\n' || c = '\r' || c = '\x0b' || c = '\x0c'

/-- Model of Python str.lower (ASCII case folding). -/
def pyLower (s : String) : String :=
  String.mk (s.data.map Char.toLower)

/-- Model of Python str.strip(): drop leading and trailing whitespace. -/
def pyStrip (s : String) : String :=
  String.mk (((s.data.dropWhile isSpaceChar).reverse.dropWhile isSpaceChar).reverse)

/-- Digit-string to Nat; none when empty or holding a non-digit. -/
def digitsToNat? (cs : List Char) : Option Nat :=
  if cs ≠ [] ∧ cs.all (fun c => c.isDigit) then
    some (cs.foldl (fun a c => a * 10 + (c.toNat - 48)) 0)
  else none

/-- Model of Python int(str): optional sign, decimal digits, surrounding
whitespace allowed; none models a raised ValueError.  (Underscore digit
separators and non-ASCII digits are not modelled; no call site in the
embedded code feeds them.) -/
def pyInt? (s : String) : Option Int :=
  match (pyStrip s).data with
  | '+' :: rest => (digitsToNat? rest).map (fun n => (n : Int))
  | '-' :: rest => (digitsToNat? rest).map (fun n => -(n : Int))
  | cs => (digitsToNat? cs).map (fun n => (n : Int))

/-- Last character of a string, if any. -/
def lastChar? (s : String) : Option Char :=
  s.data.getLast?

/-- Drop the last character of a string (Python s[:-1]). -/
def dropLastChar (s : String) : String :=
  String.mk s.data.dropLast

/-- bot.py parse_time_to_seconds: lower + strip, empty gives 0, then an
endswith chain over the unit suffixes s/m/h/d, falling back to a bare
int; the surrounding try/except ValueError returns 0, which here is the
getD 0 on the Option-valued int model. -/
def parse_time_to_seconds (time_str : String) : Int :=
  let t := pyStrip (pyLower time_str)
  if t = "" then 0
  else
    match lastChar? t with
    | some 's' => (pyInt? (dropLastChar t)).getD 0
    | some 'm' => ((pyInt? (dropLastChar t)).map (fun n => n * 60)).getD 0
    | some 'h' => ((pyInt? (dropLastChar t)).map (fun n => n * 3600)).getD 0
    | some 'd' => ((pyInt? (dropLastChar t)).map (fun n => n * 86400)).getD 0
    | _ => (pyInt? t).getD 0

/-- bot.py seconds_to_readable (join of nonzero d/h/m/s parts). -/
def seconds_to_readable (seconds : Int) : String :=
  if seconds ≤ 0 then "0s"
  else
    let days := seconds / 86400
    let hours := (seconds % 86400) / 3600
    let minutes := (seconds % 3600) / 60
    let secs := seconds % 60
    let parts :=
      (if days > 0 then [toString days ++ "d"] else []) ++
      (if hours > 0 then [toString hours ++ "h"] else []) ++
      (if minutes > 0 then [toString minutes ++ "m"] else [])
    let parts :=
      if secs > 0 ∨ parts = [] then parts ++ [toString secs ++ "s"] else parts
    String.intercalate " " parts

/-- The one Python exception kind the embedded control flow distinguishes. -/
inductive PyError where
  | valueError
  deriving Repr, DecidableEq

instance {ε α : Type} [DecidableEq ε] [DecidableEq α] :
    DecidableEq (Except ε α) := fun x y =>
  match x, y with
  | .ok a, .ok b => decidable_of_iff (a = b) (by simp)
  | .error e, .error f => decidable_of_iff (e = f) (by simp)
  | .ok _, .error _ => isFalse (by simp)
  | .error _, .ok _ => isFalse (by simp)

/-- The slice of bot state that /time_period touches: the stored
check_interval config value and the active recurring job's interval
(none when no channel_check job is scheduled). -/
structure SchedState where
  checkIntervalConfig : String
  jobInterval : Option Int
  deriving Repr, DecidableEq

/-- Observable outcome of the /time_period handler (which reply it sends). -/
inductive TimePeriodOutcome where
  | usage
  | belowMinimum
  | intervalSet (n : Int)
  | invalidFormat
  deriving Repr, DecidableEq

/-- Body of bot.py time_period_cmd: parse the first argument, reject
below the 30 s minimum before any mutation, otherwise store the interval
and reschedule the channel_check job.  The Except layer carries a
ValueError escaping the body (none of its operations raise one). -/
def time_period_body (args : List String) (st : SchedState) :
    Except PyError (TimePeriodOutcome × SchedState) :=
  match args with
  | [] => .ok (.usage, st)
  | arg :: _ =>
    let interval := parse_time_to_seconds arg
    if interval < 30 then .ok (.belowMinimum, st)
    else
      .ok (.intervalSet interval,
        { checkIntervalConfig := toString interval, jobInterval := some interval })

/-- bot.py time_period_cmd: the body wrapped in the handler's
try/except ValueError, whose handler replies "Invalid format". -/
def time_period_cmd (args : List String) (st : SchedState) :
    TimePeriodOutcome × SchedState :=
  match time_period_body args st with
  | .ok r => r
  | .error .valueError => (.invalidFormat, st)

/-- One registry row of the channels table. -/
structure Channel where
  channel_id : String
  channel_name : String
  status : String
  deriving Repr, DecidableEq

/-- Bot state: channels registry (insertion order), channel_groups rows
(group_name, channel_id), config key-value rows, and the value of the
global is_shutting_down flag at entry to the operation being modelled. -/
structure BotState where
  channels : List Channel
  groups : List (String × String)
  config : List (String × String)
  shuttingDown : Bool
  deriving Repr, DecidableEq

/-- get_config: first config row with the given key. -/
def lookupConfig (st : BotState) (key : String) : Option String :=
  (st.config.find? (fun p => p.1 == key)).map (fun p => p.2)

/-- Status column of the registry row with the given channel id. -/
def statusOf (chs : List Channel) (cid : String) : Option String :=
  (chs.find? (fun c => c.channel_id == cid)).map (fun c => c.status)

/-- get_group_channels: channel ids of the rows of one group. -/
def get_group_channels (st : BotState) (group_name : String) : List String :=
  (st.groups.filter (fun r => r.1 == group_name)).map (fun r => r.2)

/-- channels.get(ch_id, "Unknown") over the registry snapshot. -/
def channelNameOf (st : BotState) (cid : String) : String :=
  match st.channels.find? (fun c => c.channel_id == cid) with
  | some c => c.channel_name
  | none => "Unknown"

/-- bot.py remove_channel: no-op while shutting down, otherwise DELETE
the channels row and every channel_groups row holding this id. -/
def remove_channel (st : BotState) (cid : String) : BotState :=
  if st.shuttingDown then st
  else
    { st with
      channels := st.channels.filter (fun c => !(c.channel_id == cid)),
      groups := st.groups.filter (fun r => !(r.2 == cid)) }

/-- Outbound transport oracle: per channel id, whether send_message /
delete_message / copy succeed, and the exception text raised on a
failure. -/
structure Transport where
  sendOk : String → Bool
  deleteOk : String → Bool
  copyOk : String → Bool
  errText : String → String

/-- Observable side effects of a monitor pass.  alert records an
AlertDispatcher invocation for a channel; the observation alphabet
includes it so that claims about alerting are statable, though no code
path of bot.py emits one. -/
inductive Event where
  | logMsg (msg : String)
  | send (cid : String)
  | statusUpdate (cid : String) (status : String)
  | deleteAttempt (cid : String) (ok : Bool)
  | alert (cid : String)
  deriving Repr, DecidableEq

/-- One iteration of the check_channel_status loop body for a channel:
send the test message; on success UPDATE status to active and (when
delete_interval > 0) attempt the delete, whose failure the inner
try/except swallows; on a send exception UPDATE status to inactive.
Returns the events and the status value written. -/
def probeOne (tr : Transport) (dI : Int) (cid : String) : List Event × String :=
  if tr.sendOk cid then
    ([Event.send cid, Event.statusUpdate cid "active"] ++
      (if dI > 0 then [Event.deleteAttempt cid (tr.deleteOk cid)] else []),
     "active")
  else
    ([Event.send cid, Event.statusUpdate cid "inactive"], "inactive")

/-- The channel loop of check_channel_status.  sd i is the value of the
global is_shutting_down flag observed at the top of iteration i; when it
is raised the loop breaks before probing the next channel.  Returns the
events and the (channel_id, status) updates issued, in order. -/
def checkLoop (tr : Transport) (dI : Int) (sd : Nat → Bool) :
    Nat → List Channel → List Event × List (String × String)
  | _, [] => ([], [])
  | i, c :: rest =>
    if sd i then ([], [])
    else
      ((probeOne tr dI c.channel_id).1 ++ (checkLoop tr dI sd (i + 1) rest).1,
       (c.channel_id, (probeOne tr dI c.channel_id).2) ::
         (checkLoop tr dI sd (i + 1) rest).2)

/-- Events of a full pass that is never interrupted by shutdown. -/
def passEvents (tr : Transport) (dI : Int) : List Channel → List Event
  | [] => []
  | c :: rest => (probeOne tr dI c.channel_id).1 ++ passEvents tr dI rest

/-- Status updates of a full pass that is never interrupted by shutdown. -/
def passUpdates (tr : Transport) (dI : Int) (chs : List Channel) :
    List (String × String) :=
  chs.map (fun c => (c.channel_id, (probeOne tr dI c.channel_id).2))

/-- update_channel_status: UPDATE channels SET status WHERE channel_id. -/
def applyStatus (chs : List Channel) (cid status : String) : List Channel :=
  chs.map (fun c => if c.channel_id == cid then { c with status := status } else c)

/-- Apply a sequence of status updates in order. -/
def applyUpdates (chs : List Channel) (us : List (String × String)) : List Channel :=
  us.foldl (fun acc u => applyStatus acc u.1 u.2) chs

/-- int(get_config('delete_interval') or 3): missing or empty config
falls back to 3; a malformed value makes int raise ValueError. -/
def deleteIntervalOf (st : BotState) : Except PyError Int :=
  match lookupConfig st "delete_interval" with
  | none => .ok 3
  | some v =>
    if v = "" then .ok 3
    else
      match pyInt? v with
      | some n => .ok n
      | none => .error .valueError

/-- bot.py check_channel_status: return at once while shutting down;
skip (with a log line) when bot_active is not 'true' or the registry is
empty; otherwise read the configs and run the channel loop, applying
each UPDATE to the registry.  The Except layer carries a ValueError from
the int() on a malformed delete_interval config value. -/
def check_channel_status (tr : Transport) (sd : Nat → Bool) (st : BotState) :
    Except PyError (List Event × BotState) :=
  if st.shuttingDown then .ok ([], st)
  else if lookupConfig st "bot_active" ≠ some "true" then
    .ok ([Event.logMsg "Bot is inactive, skipping channel check"], st)
  else if st.channels = [] then
    .ok ([Event.logMsg "No channels to check"], st)
  else
    match deleteIntervalOf st with
    | .error e => .error e
    | .ok dI =>
      let r := checkLoop tr dI sd 0 st.channels
      .ok (Event.logMsg ("Checking " ++ toString st.channels.length ++ " channels") :: r.1,
        { st with channels := applyUpdates st.channels r.2 })

/-- Number of send attempts to a given channel id in an event list. -/
def sendCount (evs : List Event) (cid : String) : Nat :=
  evs.count (Event.send cid)

/-- Whether an event is an alert dispatch. -/
def isAlertEv : Event → Bool
  | .alert _ => true
  | _ => false

/-- Number of alert dispatches (to any channel) in an event list. -/
def alertCount (evs : List Event) : Nat :=
  (evs.filter isAlertEv).length

/-- Counters of a fan-out: successful, failed, "name: err[:50]" lines. -/
structure DeliveryReport where
  successful : Nat
  failed : Nat
  total : Nat
  failures : List String
  deriving Repr, DecidableEq

/-- Outcome of the /broadcast handler: entry refusal while shutting
down, the "No channels to broadcast to" reply, or the final report
message, carrying the ids attempted, the counters, the failures shown
(first 5) and the overflow count. -/
inductive FanoutResult where
  | shutDown
  | noTargets
  | report (attempted : List String) (rep : DeliveryReport)
      (shown : List String) (overflow : Nat)
  deriving Repr, DecidableEq

/-- The delivery loop shared by /broadcast and /publish over
(channel_id, display_name) pairs: one copy attempt per target, counting
successes and failures and collecting "name: str(e)[:50]" per failure,
in iteration order. -/
def deliverRun (tr : Transport) : List (String × String) → Nat × Nat × List String
  | [] => (0, 0, [])
  | (cid, name) :: rest =>
    let r := deliverRun tr rest
    if tr.copyOk cid then (r.1 + 1, r.2.1, r.2.2)
    else (r.1, r.2.1 + 1, (name ++ ": " ++ (tr.errText cid).take 50) :: r.2.2)

/-- Failures beyond the first 5 shown in the final summary. -/
def overflowCount (n : Nat) : Nat :=
  if n > 5 then n - 5 else 0

/-- bot.py broadcast_cmd core: refuse at entry while shutting down;
with an empty registry reply "No channels to broadcast to" and stop;
otherwise iterate all registry channels once and build the report with
total = len(channels), listing failed_channels[:5] plus an overflow
line.  (Progress edits and the pacing sleep do not affect delivery
accounting and are not modelled.) -/
def broadcast_cmd (tr : Transport) (st : BotState) : FanoutResult :=
  if st.shuttingDown then .shutDown
  else if st.channels = [] then .noTargets
  else
    let pairs := st.channels.map (fun c => (c.channel_id, c.channel_name))
    let r := deliverRun tr pairs
    .report (st.channels.map (fun c => c.channel_id))
      { successful := r.1, failed := r.2.1, total := st.channels.length,
        failures := r.2.2 }
      (r.2.2.take 5) (overflowCount r.2.2.length)

/-- Outcome of the /publish handler (group fan-out). -/
inductive PublishResult where
  | shutDown
  | groupNotFound
  | report (attempted : List String) (rep : DeliveryReport)
      (shown : List String) (overflow : Nat)
  deriving Repr, DecidableEq

/-- bot.py publish_cmd core: resolve the group's channel_ids (empty →
"Group not found" reply); iterate every id in the group, registered or
not, looking the display name up with channels.get(ch_id, "Unknown"),
with total = len(channel_ids); report as in broadcast_cmd. -/
def publish_cmd (tr : Transport) (st : BotState) (group_name : String) :
    PublishResult :=
  if st.shuttingDown then .shutDown
  else
    let channel_ids := get_group_channels st group_name
    if channel_ids = [] then .groupNotFound
    else
      let pairs := channel_ids.map (fun cid => (cid, channelNameOf st cid))
      let r := deliverRun tr pairs
      .report channel_ids
        { successful := r.1, failed := r.2.1, total := channel_ids.length,
          failures := r.2.2 }
        (r.2.2.take 5) (overflowCount r.2.2.length)

/-- Whether a fan-out outcome is a delivery report (of any content). -/
def isReport : FanoutResult → Bool
  | .report _ _ _ _ => true
  | _ => false

/-- Registry channels whose copy fails under a transport. -/
def failedOf (tr : Transport) (chs : List Channel) : List Channel :=
  chs.filter (fun c => !(tr.copyOk c.channel_id))

/-- A failure line of the report: display name plus str(e)[:50]. -/
def failureLine (tr : Transport) (c : Channel) : String :=
  c.channel_name ++ ": " ++ (tr.errText c.channel_id).take 50

-- Concrete fixtures used by witnesses and counterexamples.

/-- Shutdown flag that never rises during a pass. -/
def sdNever : Nat → Bool := fun _ => false

/-- Transport on which every send (and copy) fails. -/
def trFail : Transport :=
  { sendOk := fun _ => false, deleteOk := fun _ => true,
    copyOk := fun _ => false,
    errText := fun _ => "Forbidden: bot was kicked from the channel chat" }

/-- Transport on which sends succeed but deletes fail. -/
def trNoDelete : Transport :=
  { sendOk := fun _ => true, deleteOk := fun _ => false,
    copyOk := fun _ => true,
    errText := fun _ => "Message to delete not found" }

/-- Transport on which everything succeeds. -/
def trAllOk : Transport :=
  { sendOk := fun _ => true, deleteOk := fun _ => true,
    copyOk := fun _ => true, errText := fun _ => "" }

/-- A single registered channel. -/
def chan1 : Channel :=
  { channel_id := "c1", channel_name := "Chan One", status := "unknown" }

/-- State with one channel, monitoring active, delete_interval 3. -/
def st1 : BotState :=
  { channels := [chan1], groups := [],
    config := [("bot_active", "true"), ("delete_interval", "3")],
    shuttingDown := false }

/-- State with one channel but monitoring turned off. -/
def stInactive : BotState :=
  { channels := [chan1], groups := [],
    config := [("bot_active", "false"), ("delete_interval", "3")],
    shuttingDown := false }

/-- State with an empty registry. -/
def stEmpty : BotState :=
  { channels := [], groups := [], config := [("bot_active", "true")],
    shuttingDown := false }

/-- State whose group g holds a dangling id X and a registered id A. -/
def st3 : BotState :=
  { channels := [{ channel_id := "A", channel_name := "Chan A", status := "unknown" }],
    groups := [("g", "X"), ("g", "A")],
    config := [("bot_active", "true")], shuttingDown := false }

/-- State whose group memberships reference channel c1. -/
def stC9 : BotState :=
  { channels := [chan1, { channel_id := "c2", channel_name := "Chan Two", status := "unknown" }],
    groups := [("g", "c1"), ("g", "c2"), ("h", "c1")],
    config := [], shuttingDown := false }

/-- Ten registered broadcast targets. -/
def st10 : BotState :=
  { channels :=
      [⟨"t1", "N1", "unknown"⟩, ⟨"t2", "N2", "unknown"⟩, ⟨"t3", "N3", "unknown"⟩,
       ⟨"t4", "N4", "unknown"⟩, ⟨"t5", "N5", "unknown"⟩, ⟨"t6", "N6", "unknown"⟩,
       ⟨"t7", "N7", "unknown"⟩, ⟨"t8", "N8", "unknown"⟩, ⟨"t9", "N9", "unknown"⟩,
       ⟨"t10", "N10", "unknown"⟩],
    groups := [], config := [], shuttingDown := false }

/-- Transport failing the copy for exactly t2, t5 and t9. -/
def tr10 : Transport :=
  { sendOk := fun _ => true, deleteOk := fun _ => true,
    copyOk := fun cid => !(cid == "t2" || cid == "t5" || cid == "t9"),
    errText := fun _ => "Chat not found" }

-- ==================== helper lemmas ====================

theorem checkLoop_no_shutdown (tr : Transport) (dI : Int) (sd : Nat → Bool)
    (h : ∀ j, sd j = false) (i : Nat) (chs : List Channel) :
    checkLoop tr dI sd i chs = (passEvents tr dI chs, passUpdates tr dI chs) := by
  induction chs generalizing i with
  | nil => simp [checkLoop, passEvents, passUpdates]
  | cons c rest ih => simp [checkLoop, h i, passEvents, passUpdates, ih]

theorem probeOne_count_send (tr : Transport) (dI : Int) (x cid : String) :
    ((probeOne tr dI x).1).count (Event.send cid) = if x = cid then 1 else 0 := by
  by_cases hx : x = cid
  · subst hx
    by_cases hs : tr.sendOk x <;> by_cases hd : dI > 0 <;>
      simp [probeOne, hs, hd, List.count_append, List.count_cons, List.count_nil]
  · by_cases hs : tr.sendOk x <;> by_cases hd : dI > 0 <;>
      simp [probeOne, hs, hd, hx, List.count_append, List.count_cons,
        List.count_nil]

theorem passEvents_count_send (tr : Transport) (dI : Int) (cid : String)
    (chs : List Channel) :
    (passEvents tr dI chs).count (Event.send cid) =
      (chs.filter (fun c => c.channel_id == cid)).length := by
  induction chs with
  | nil => simp [passEvents]
  | cons c rest ih =>
    rw [passEvents, List.count_append, ih, probeOne_count_send, List.filter_cons]
    by_cases h : c.channel_id = cid
    · simp [h]
      omega
    · simp [h]

theorem probeOne_no_alert (tr : Transport) (dI : Int) (x : String) :
    ((probeOne tr dI x).1).filter isAlertEv = [] := by
  by_cases hs : tr.sendOk x <;> by_cases hd : dI > 0 <;>
    simp [probeOne, hs, hd, isAlertEv]

theorem passEvents_no_alert (tr : Transport) (dI : Int) (chs : List Channel) :
    alertCount (passEvents tr dI chs) = 0 := by
  induction chs with
  | nil => simp [passEvents, alertCount]
  | cons c rest ih =>
    rw [alertCount, passEvents, List.filter_append, probeOne_no_alert]
    simpa [alertCount] using ih

theorem passEvents_statusUpdate_mem (tr : Transport) (dI : Int) (cid s : String)
    (chs : List Channel)
    (hmem : Event.statusUpdate cid s ∈ passEvents tr dI chs) :
    s = (if tr.sendOk cid then "active" else "inactive") := by
  induction chs with
  | nil => simp [passEvents] at hmem
  | cons c rest ih =>
    rw [passEvents, List.mem_append] at hmem
    rcases hmem with h | h
    · by_cases hs : tr.sendOk c.channel_id <;> by_cases hd : dI > 0 <;>
        simp [probeOne, hs, hd] at h <;>
        · obtain ⟨hcid, hst⟩ := h
          subst hcid
          simp [hs, hst]
    · exact ih h

theorem passEvents_statusUpdate_self (tr : Transport) (dI : Int)
    (chs : List Channel) (c : Channel) (hc : c ∈ chs) :
    Event.statusUpdate c.channel_id ((probeOne tr dI c.channel_id).2) ∈
      passEvents tr dI chs := by
  induction chs with
  | nil => cases hc
  | cons a rest ih =>
    rw [passEvents, List.mem_append]
    rcases List.mem_cons.mp hc with rfl | hc'
    · left
      by_cases hs : tr.sendOk c.channel_id <;> by_cases hd : dI > 0 <;>
        simp [probeOne, hs, hd]
    · exact Or.inr (ih hc')

theorem applyStatus_cons (c : Channel) (chs : List Channel) (cid s : String) :
    applyStatus (c :: chs) cid s =
      (if c.channel_id == cid then { c with status := s } else c) ::
        applyStatus chs cid s := rfl

theorem applyStatus_not_mem (chs : List Channel) (cid s : String)
    (h : ∀ c ∈ chs, c.channel_id ≠ cid) : applyStatus chs cid s = chs := by
  induction chs with
  | nil => rfl
  | cons c rest ih =>
    rw [applyStatus_cons]
    have hc : c.channel_id ≠ cid := h c (List.mem_cons_self c rest)
    simp only [beq_iff_eq, if_neg hc]
    rw [ih (fun x hx => h x (List.mem_cons_of_mem _ hx))]

theorem applyUpdates_cons (chs : List Channel) (u : String × String)
    (us : List (String × String)) :
    applyUpdates chs (u :: us) = applyUpdates (applyStatus chs u.1 u.2) us := rfl

theorem applyUpdates_head_skip (c : Channel) (us : List (String × String))
    (chs : List Channel) (h : ∀ u ∈ us, u.1 ≠ c.channel_id) :
    applyUpdates (c :: chs) us = c :: applyUpdates chs us := by
  induction us generalizing chs with
  | nil => rfl
  | cons u rest ih =>
    rw [applyUpdates_cons, applyStatus_cons]
    have hu : c.channel_id ≠ u.1 :=
      fun he => (h u (List.mem_cons_self u rest)) he.symm
    simp only [beq_iff_eq, if_neg hu]
    rw [applyUpdates_cons]
    exact ih _ (fun v hv => h v (List.mem_cons_of_mem _ hv))

theorem applyUpdates_map_nodup (f : Channel → String) (chs : List Channel)
    (hnd : (chs.map (fun c => c.channel_id)).Nodup) :
    applyUpdates chs (chs.map (fun c => (c.channel_id, f c))) =
      chs.map (fun c => { c with status := f c }) := by
  induction chs with
  | nil => rfl
  | cons c rest ih =>
    rw [List.map_cons] at hnd
    obtain ⟨hnotm, hnd'⟩ := List.nodup_cons.mp hnd
    rw [List.map_cons, List.map_cons, applyUpdates_cons]
    have h1 : applyStatus (c :: rest) c.channel_id (f c) =
        { c with status := f c } :: rest := by
      rw [applyStatus_cons]
      simp only [beq_self_eq_true, if_pos]
      rw [applyStatus_not_mem rest c.channel_id (f c)]
      intro x hx he
      exact hnotm (he ▸ List.mem_map_of_mem (fun c => c.channel_id) hx)
    rw [h1, applyUpdates_head_skip]
    · rw [ih hnd']
    · intro u hu
      obtain ⟨x, hx, rfl⟩ := List.mem_map.mp hu
      intro he
      exact hnotm (he ▸ List.mem_map_of_mem (fun c => c.channel_id) hx)

theorem applyUpdates_length (us : List (String × String)) (chs : List Channel) :
    (applyUpdates chs us).length = chs.length := by
  induction us generalizing chs with
  | nil => rfl
  | cons u rest ih =>
    rw [applyUpdates_cons, ih]
    simp [applyStatus]

theorem statusOf_map_status (f : Channel → String) (chs : List Channel)
    (hnd : (chs.map (fun c => c.channel_id)).Nodup)
    (c : Channel) (hc : c ∈ chs) :
    statusOf (chs.map (fun x => { x with status := f x })) c.channel_id =
      some (f c) := by
  induction chs with
  | nil => cases hc
  | cons a rest ih =>
    rw [List.map_cons] at hnd
    obtain ⟨hnotm, hnd'⟩ := List.nodup_cons.mp hnd
    rw [List.map_cons]
    rcases List.mem_cons.mp hc with rfl | hc'
    · unfold statusOf
      rw [List.find?_cons_of_pos]
      · rfl
      · simp
    · have hne : a.channel_id ≠ c.channel_id := by
        intro he
        exact hnotm (he ▸ List.mem_map_of_mem (fun x => x.channel_id) hc')
      unfold statusOf
      rw [List.find?_cons_of_neg]
      · exact ih hnd' hc'
      · simp [hne]

theorem filter_id_singleton (chs : List Channel)
    (hnd : (chs.map (fun c => c.channel_id)).Nodup)
    (c : Channel) (hc : c ∈ chs) :
    (chs.filter (fun x => x.channel_id == c.channel_id)).length = 1 := by
  induction chs with
  | nil => cases hc
  | cons a rest ih =>
    rw [List.map_cons] at hnd
    obtain ⟨hnotm, hnd'⟩ := List.nodup_cons.mp hnd
    rcases List.mem_cons.mp hc with rfl | hc'
    · rw [List.filter_cons]
      simp only [beq_self_eq_true, if_pos]
      have : rest.filter (fun x => x.channel_id == c.channel_id) = [] := by
        rw [List.filter_eq_nil_iff]
        intro x hx
        simp only [beq_iff_eq]
        intro he
        exact hnotm (he ▸ List.mem_map_of_mem (fun x => x.channel_id) hx)
      simp [this]
    · have hne : a.channel_id ≠ c.channel_id := by
        intro he
        exact hnotm (he ▸ List.mem_map_of_mem (fun x => x.channel_id) hc')
      rw [List.filter_cons]
      simp only [beq_iff_eq, if_neg hne]
      exact ih hnd' hc'

theorem check_channel_status_run (tr : Transport) (sd : Nat → Bool)
    (st : BotState) (dI : Int)
    (h0 : st.shuttingDown = false)
    (hact : lookupConfig st "bot_active" = some "true")
    (hne : st.channels ≠ [])
    (hdI : deleteIntervalOf st = .ok dI)
    (hsd : ∀ i, sd i = false) :
    check_channel_status tr sd st =
      .ok (Event.logMsg ("Checking " ++ toString st.channels.length ++ " channels") ::
             passEvents tr dI st.channels,
           { st with channels :=
               applyUpdates st.channels (passUpdates tr dI st.channels) }) := by
  simp [check_channel_status, h0, hact, hne, hdI,
    checkLoop_no_shutdown tr dI sd hsd]

theorem deliverRun_channels (tr : Transport) (chs : List Channel) :
    deliverRun tr (chs.map (fun c => (c.channel_id, c.channel_name))) =
      ((chs.filter (fun c => tr.copyOk c.channel_id)).length,
       (failedOf tr chs).length,
       (failedOf tr chs).map (failureLine tr)) := by
  induction chs with
  | nil => rfl
  | cons c rest ih =>
    by_cases h : tr.copyOk c.channel_id <;>
      simp [deliverRun, failedOf, failureLine, List.filter_cons, h, ih]

theorem deliverRun_counts (tr : Transport) (ps : List (String × String)) :
    (deliverRun tr ps).1 + (deliverRun tr ps).2.1 = ps.length := by
  induction ps with
  | nil => rfl
  | cons p rest ih =>
    obtain ⟨cid, name⟩ := p
    by_cases h : tr.copyOk cid <;> simp [deliverRun, h] <;> omega

theorem filter_length_split (p : Channel → Bool) (chs : List Channel) :
    (chs.filter p).length + (chs.filter (fun c => !(p c))).length = chs.length := by
  induction chs with
  | nil => rfl
  | cons c rest ih =>
    by_cases h : p c <;> simp [List.filter_cons, h] <;> omega

theorem broadcast_cmd_spec (tr : Transport) (st : BotState)
    (h0 : st.shuttingDown = false) (hne : st.channels ≠ []) :
    broadcast_cmd tr st =
      .report (st.channels.map (fun c => c.channel_id))
        { successful := st.channels.length - (failedOf tr st.channels).length,
          failed := (failedOf tr st.channels).length,
          total := st.channels.length,
          failures := (failedOf tr st.channels).map (failureLine tr) }
        (((failedOf tr st.channels).map (failureLine tr)).take 5)
        (overflowCount ((failedOf tr st.channels).map (failureLine tr)).length) := by
  have hsucc : (st.channels.filter (fun c => tr.copyOk c.channel_id)).length
      = st.channels.length - (failedOf tr st.channels).length := by
    have h := filter_length_split (fun c => tr.copyOk c.channel_id) st.channels
    unfold failedOf
    omega
  simp only [broadcast_cmd, h0, Bool.false_eq_true, if_false, if_neg hne,
    deliverRun_channels, hsucc]

theorem publish_cmd_run (tr : Transport) (st : BotState) (g : String)
    (h0 : st.shuttingDown = false) (hne : get_group_channels st g ≠ []) :
    publish_cmd tr st g =
      .report (get_group_channels st g)
        { successful := (deliverRun tr ((get_group_channels st g).map
              (fun cid => (cid, channelNameOf st cid)))).1,
          failed := (deliverRun tr ((get_group_channels st g).map
              (fun cid => (cid, channelNameOf st cid)))).2.1,
          total := (get_group_channels st g).length,
          failures := (deliverRun tr ((get_group_channels st g).map
              (fun cid => (cid, channelNameOf st cid)))).2.2 }
        ((deliverRun tr ((get_group_channels st g).map
              (fun cid => (cid, channelNameOf st cid)))).2.2.take 5)
        (overflowCount (deliverRun tr ((get_group_channels st g).map
              (fun cid => (cid, channelNameOf st cid)))).2.2.length) := by
  simp only [publish_cmd, h0, Bool.false_eq_true, if_false, if_neg hne]

theorem parse_example_10s : parse_time_to_seconds "10s" = 10 := by decide

theorem parse_example_bad : parse_time_to_seconds "1d 2h" = 0 := by decide

-- ==================== claim theorems ====================

/-- C4: an argument parsing below the 30-second minimum makes
/time_period reply with the rejection synchronously and return with the
stored check_interval and the scheduled channel_check job untouched. -/
theorem C4_interval_below_min_rejected (arg : String) (rest : List String)
    (st : SchedState) (h : parse_time_to_seconds arg < 30) :
    time_period_cmd (arg :: rest) st = (.belowMinimum, st) := by
  simp [time_period_cmd, time_period_body, h]

/-- Witness for C4: the spec's example input 10s against a state holding
a stored 1-hour interval and an active 1-hour job. -/
theorem C4_witness :
    parse_time_to_seconds "10s" < 30 ∧
      time_period_cmd ["10s"]
          { checkIntervalConfig := "3600", jobInterval := some 3600 } =
        (.belowMinimum,
          { checkIntervalConfig := "3600", jobInterval := some 3600 }) :=
  ⟨by decide, C4_interval_below_min_rejected "10s" []
    { checkIntervalConfig := "3600", jobInterval := some 3600 } (by decide)⟩

/-- C9: when not shutting down, remove_channel deletes the registry row
and every channel_groups row with that id, so afterwards no group (and
no registry row) contains the id. -/
theorem C9_remove_channel_no_dangling (st : BotState) (cid : String)
    (h : st.shuttingDown = false) :
    (∀ r ∈ (remove_channel st cid).groups, r.2 ≠ cid) ∧
    (∀ c ∈ (remove_channel st cid).channels, c.channel_id ≠ cid) := by
  constructor
  · intro r hr
    simp only [remove_channel, h, Bool.false_eq_true, if_false] at hr
    have h2 := (List.mem_filter.mp hr).2
    simpa using h2
  · intro c hc
    simp only [remove_channel, h, Bool.false_eq_true, if_false] at hc
    have h2 := (List.mem_filter.mp hc).2
    simpa using h2

/-- Witness for C9: removing c1 from a state whose groups g and h
reference it. -/
theorem C9_witness :
    stC9.shuttingDown = false ∧
      ((∀ r ∈ (remove_channel stC9 "c1").groups, r.2 ≠ "c1") ∧
       (∀ c ∈ (remove_channel stC9 "c1").channels, c.channel_id ≠ "c1")) :=
  ⟨rfl, C9_remove_channel_no_dangling stC9 "c1" rfl⟩

/-- C10: parse_time_to_seconds is total (its int conversions sit inside
its own try/except, mapping every malformed or empty duration to 0), so
the ValueError branch of /time_period is unreachable and malformed input
such as "1d 2h" is rejected by the 30-second minimum check instead. -/
theorem C10_parse_total_invalid_unreachable :
    (∀ (args : List String) (st : SchedState),
        (time_period_cmd args st).1 ≠ TimePeriodOutcome.invalidFormat) ∧
    parse_time_to_seconds "" = 0 ∧
    parse_time_to_seconds "1d 2h" = 0 ∧
    parse_time_to_seconds "abc" = 0 ∧
    (∀ st : SchedState, time_period_cmd ["1d 2h"] st = (.belowMinimum, st)) := by
  refine ⟨?_, by decide, by decide, by decide, ?_⟩
  · intro args st
    cases args with
    | nil => simp [time_period_cmd, time_period_body]
    | cons a rest =>
      simp only [time_period_cmd, time_period_body]
      by_cases h : parse_time_to_seconds a < 30 <;> simp [h]
  · intro st
    have h : parse_time_to_seconds "1d 2h" = 0 := by decide
    simp [time_period_cmd, time_period_body, h]

/-- C6 counterexample: on an empty registry the broadcast handler stops
with the distinguishable "No channels to broadcast to" outcome and does
not return a delivery report (so no report with zero counts exists). -/
theorem C6_counterexample :
    broadcast_cmd trAllOk stEmpty = .noTargets ∧
      isReport (broadcast_cmd trAllOk stEmpty) = false := by decide

/-- C6 amended: a fan-out over an empty registry performs no delivery
attempts and immediately yields the distinguishable no-targets
condition, without producing any delivery report. -/
theorem C6_empty_fanout (tr : Transport) (st : BotState)
    (h0 : st.shuttingDown = false) (he : st.channels = []) :
    broadcast_cmd tr st = .noTargets ∧
      isReport (broadcast_cmd tr st) = false := by
  simp [broadcast_cmd, h0, he, isReport]

/-- Witness for C6 amended at the concrete empty registry. -/
theorem C6_witness :
    (stEmpty.shuttingDown = false ∧ stEmpty.channels = []) ∧
      (broadcast_cmd trAllOk stEmpty = .noTargets ∧
        isReport (broadcast_cmd trAllOk stEmpty) = false) :=
  ⟨⟨rfl, rfl⟩, C6_empty_fanout trAllOk stEmpty rfl rfl⟩

/-- C3 counterexample: publishing to group g = [X (dangling), A
(registered)] attempts both ids and reports total = 2, not total = 1:
the dangling id is not skipped. -/
theorem C3_counterexample :
    publish_cmd trAllOk st3 "g" =
      .report ["X", "A"]
        { successful := 2, failed := 0, total := 2, failures := [] } [] 0 ∧
      (2 : Nat) ≠ 1 := by decide

/-- C3 amended: every id of a published group, registered or dangling,
receives a delivery attempt (dangling ids under display name Unknown),
and the report's total is the number of group rows, with every attempt
accounted as a success or a failure. -/
theorem C3_group_total_counts_dangling (tr : Transport) (st : BotState)
    (g : String) (h0 : st.shuttingDown = false)
    (hne : get_group_channels st g ≠ []) :
    ∃ rep shown ov,
      publish_cmd tr st g = .report (get_group_channels st g) rep shown ov ∧
        rep.total = (get_group_channels st g).length ∧
        rep.successful + rep.failed = rep.total := by
  have hc := deliverRun_counts tr
    ((get_group_channels st g).map (fun cid => (cid, channelNameOf st cid)))
  rw [List.length_map] at hc
  rw [publish_cmd_run tr st g h0 hne]
  exact ⟨_, _, _, rfl, rfl, hc⟩

/-- Witness for C3 amended at the dangling-id group fixture. -/
theorem C3_witness :
    (st3.shuttingDown = false ∧ get_group_channels st3 "g" ≠ []) ∧
      (∃ rep shown ov,
        publish_cmd trAllOk st3 "g" =
          .report (get_group_channels st3 "g") rep shown ov ∧
          rep.total = (get_group_channels st3 "g").length ∧
          rep.successful + rep.failed = rep.total) :=
  ⟨⟨rfl, by decide⟩,
    C3_group_total_counts_dangling trAllOk st3 "g" rfl (by decide)⟩

/-- C7: with bot_active set to false a scheduled pass performs zero
probe sends, is logged as skipped, and completes normally with the state
unchanged. -/
theorem C7_disabled_pass_no_probes (tr : Transport) (sd : Nat → Bool)
    (st : BotState) (h0 : st.shuttingDown = false)
    (hoff : lookupConfig st "bot_active" = some "false") :
    check_channel_status tr sd st =
      .ok ([Event.logMsg "Bot is inactive, skipping channel check"], st) ∧
    (∀ cid, sendCount [Event.logMsg "Bot is inactive, skipping channel check"]
        cid = 0) := by
  constructor
  · simp [check_channel_status, h0, hoff]
  · intro cid
    rfl

/-- Witness for C7 at the single-channel state with monitoring off. -/
theorem C7_witness :
    (stInactive.shuttingDown = false ∧
      lookupConfig stInactive "bot_active" = some "false") ∧
    (check_channel_status trFail sdNever stInactive =
        .ok ([Event.logMsg "Bot is inactive, skipping channel check"],
          stInactive) ∧
      (∀ cid,
        sendCount [Event.logMsg "Bot is inactive, skipping channel check"]
          cid = 0)) :=
  ⟨⟨rfl, by decide⟩,
    C7_disabled_pass_no_probes trFail sdNever stInactive rfl (by decide)⟩

/-- C1 counterexample: one channel whose send fails on a pass.  The code
makes a single send attempt, sets the status to inactive - not banned -
and dispatches no alert at all, against the claimed banned status, the
retry with back-off, and the single alert. -/
theorem C1_counterexample :
    check_channel_status trFail sdNever st1 =
      .ok ([Event.logMsg "Checking 1 channels", Event.send "c1",
            Event.statusUpdate "c1" "inactive"],
           { channels := [{ channel_id := "c1", channel_name := "Chan One",
                            status := "inactive" }],
             groups := [],
             config := [("bot_active", "true"), ("delete_interval", "3")],
             shuttingDown := false }) ∧
      ("inactive" : String) ≠ "banned" ∧
      alertCount [Event.logMsg "Checking 1 channels", Event.send "c1",
        Event.statusUpdate "c1" "inactive"] = 0 := by decide

/-- C1 amended: for every channel whose probe send fails during an
uninterrupted active pass, the monitor makes exactly one send attempt to
it (no retry), sets its status to inactive, and dispatches no alert. -/
theorem C1_send_failure_inactive_no_alert (tr : Transport) (sd : Nat → Bool)
    (st : BotState) (dI : Int) (c : Channel)
    (h0 : st.shuttingDown = false)
    (hact : lookupConfig st "bot_active" = some "true")
    (hne : st.channels ≠ [])
    (hdI : deleteIntervalOf st = .ok dI)
    (hsd : ∀ i, sd i = false)
    (hnd : (st.channels.map (fun c => c.channel_id)).Nodup)
    (hc : c ∈ st.channels)
    (hfail : tr.sendOk c.channel_id = false) :
    ∃ evs st', check_channel_status tr sd st = .ok (evs, st') ∧
      sendCount evs c.channel_id = 1 ∧
      alertCount evs = 0 ∧
      statusOf st'.channels c.channel_id = some "inactive" := by
  rw [check_channel_status_run tr sd st dI h0 hact hne hdI hsd]
  refine ⟨_, _, rfl, ?_, ?_, ?_⟩
  · rw [sendCount, List.count_cons, passEvents_count_send,
      filter_id_singleton st.channels hnd c hc]
    simp
  · simpa [alertCount, List.filter_cons, isAlertEv]
      using passEvents_no_alert tr dI st.channels
  · show statusOf (applyUpdates st.channels (passUpdates tr dI st.channels))
      c.channel_id = some "inactive"
    unfold passUpdates
    rw [applyUpdates_map_nodup (fun x => (probeOne tr dI x.channel_id).2)
      st.channels hnd]
    rw [statusOf_map_status (fun x => (probeOne tr dI x.channel_id).2)
      st.channels hnd c hc]
    simp [probeOne, hfail]

/-- Witness for C1 amended at the single failing channel fixture. -/
theorem C1_witness :
    (st1.shuttingDown = false ∧ lookupConfig st1 "bot_active" = some "true" ∧
      st1.channels ≠ [] ∧ deleteIntervalOf st1 = .ok 3 ∧
      (st1.channels.map (fun c => c.channel_id)).Nodup ∧ chan1 ∈ st1.channels ∧
      trFail.sendOk chan1.channel_id = false) ∧
    (∃ evs st', check_channel_status trFail sdNever st1 = .ok (evs, st') ∧
      sendCount evs chan1.channel_id = 1 ∧
      alertCount evs = 0 ∧
      statusOf st'.channels chan1.channel_id = some "inactive") :=
  ⟨⟨rfl, by decide, by decide, by decide, by decide, by decide, rfl⟩,
    C1_send_failure_inactive_no_alert trFail sdNever st1 3 chan1 rfl
      (by decide) (by decide) (by decide) (fun _ => rfl) (by decide)
      (by decide) rfl⟩

/-- C2 counterexample: a channel whose send succeeds and whose delete
fails ends the pass with status active, not the claimed
active_no_delete (which the code never writes). -/
theorem C2_counterexample :
    check_channel_status trNoDelete sdNever st1 =
      .ok ([Event.logMsg "Checking 1 channels", Event.send "c1",
            Event.statusUpdate "c1" "active", Event.deleteAttempt "c1" false],
           { channels := [{ channel_id := "c1", channel_name := "Chan One",
                            status := "active" }],
             groups := [],
             config := [("bot_active", "true"), ("delete_interval", "3")],
             shuttingDown := false }) ∧
      ("active" : String) ≠ "active_no_delete" := by decide

/-- C2 amended: when the probe send succeeds the channel's status is set
to active - regardless of the delete outcome, which the code ignores -
and no failure status (inactive or banned) is ever written for it. -/
theorem C2_send_ok_delete_fail_active (tr : Transport) (sd : Nat → Bool)
    (st : BotState) (dI : Int) (c : Channel)
    (h0 : st.shuttingDown = false)
    (hact : lookupConfig st "bot_active" = some "true")
    (hne : st.channels ≠ [])
    (hdI : deleteIntervalOf st = .ok dI)
    (hsd : ∀ i, sd i = false)
    (hnd : (st.channels.map (fun c => c.channel_id)).Nodup)
    (hc : c ∈ st.channels)
    (hok : tr.sendOk c.channel_id = true) :
    ∃ evs st', check_channel_status tr sd st = .ok (evs, st') ∧
      statusOf st'.channels c.channel_id = some "active" ∧
      (∀ s, Event.statusUpdate c.channel_id s ∈ evs → s = "active") ∧
      ("active" : String) ≠ "inactive" ∧ ("active" : String) ≠ "banned" := by
  rw [check_channel_status_run tr sd st dI h0 hact hne hdI hsd]
  refine ⟨_, _, rfl, ?_, ?_, by decide, by decide⟩
  · show statusOf (applyUpdates st.channels (passUpdates tr dI st.channels))
      c.channel_id = some "active"
    unfold passUpdates
    rw [applyUpdates_map_nodup (fun x => (probeOne tr dI x.channel_id).2)
      st.channels hnd]
    rw [statusOf_map_status (fun x => (probeOne tr dI x.channel_id).2)
      st.channels hnd c hc]
    simp [probeOne, hok]
  · intro s hs
    rcases List.mem_cons.mp hs with he | hmem
    · exact Event.noConfusion he
    · have h2 := passEvents_statusUpdate_mem tr dI c.channel_id s
        st.channels hmem
      simpa [hok] using h2

/-- Witness for C2 amended at the send-ok delete-fail fixture. -/
theorem C2_witness :
    (st1.shuttingDown = false ∧ lookupConfig st1 "bot_active" = some "true" ∧
      st1.channels ≠ [] ∧ deleteIntervalOf st1 = .ok 3 ∧
      (st1.channels.map (fun c => c.channel_id)).Nodup ∧ chan1 ∈ st1.channels ∧
      trNoDelete.sendOk chan1.channel_id = true) ∧
    (∃ evs st', check_channel_status trNoDelete sdNever st1 = .ok (evs, st') ∧
      statusOf st'.channels chan1.channel_id = some "active" ∧
      (∀ s, Event.statusUpdate chan1.channel_id s ∈ evs → s = "active") ∧
      ("active" : String) ≠ "inactive" ∧ ("active" : String) ≠ "banned") :=
  ⟨⟨rfl, by decide, by decide, by decide, by decide, by decide, rfl⟩,
    C2_send_ok_delete_fail_active trNoDelete sdNever st1 3 chan1 rfl
      (by decide) (by decide) (by decide) (fun _ => rfl) (by decide)
      (by decide) rfl⟩

/-- C5: over N targets of which k fail, the report carries
successful = N - k, failed = k, one "name: err[:50]" line per failure in
order, the summary showing the first 5 failures and an overflow count of
the remainder. -/
theorem C5_fanout_counts_and_failures (tr : Transport) (st : BotState)
    (h0 : st.shuttingDown = false) (hne : st.channels ≠ []) :
    broadcast_cmd tr st =
      .report (st.channels.map (fun c => c.channel_id))
        { successful := st.channels.length - (failedOf tr st.channels).length,
          failed := (failedOf tr st.channels).length,
          total := st.channels.length,
          failures := (failedOf tr st.channels).map (failureLine tr) }
        (((failedOf tr st.channels).map (failureLine tr)).take 5)
        (overflowCount
          ((failedOf tr st.channels).map (failureLine tr)).length) :=
  broadcast_cmd_spec tr st h0 hne

/-- Concrete run of the spec's fanout example: 10 targets, 3 failing. -/
theorem broadcast_example_counts :
    broadcast_cmd tr10 st10 =
      .report ["t1", "t2", "t3", "t4", "t5", "t6", "t7", "t8", "t9", "t10"]
        { successful := 7, failed := 3, total := 10,
          failures := ["N2: Chat not found", "N5: Chat not found",
            "N9: Chat not found"] }
        ["N2: Chat not found", "N5: Chat not found", "N9: Chat not found"]
        0 := by decide

/-- Witness for C5 at the 10-target 3-failure fixture. -/
theorem C5_witness :
    (st10.shuttingDown = false ∧ st10.channels ≠ []) ∧
      broadcast_cmd tr10 st10 =
        .report (st10.channels.map (fun c => c.channel_id))
          { successful := st10.channels.length -
              (failedOf tr10 st10.channels).length,
            failed := (failedOf tr10 st10.channels).length,
            total := st10.channels.length,
            failures := (failedOf tr10 st10.channels).map (failureLine tr10) }
          (((failedOf tr10 st10.channels).map (failureLine tr10)).take 5)
          (overflowCount
            ((failedOf tr10 st10.channels).map (failureLine tr10)).length) :=
  ⟨⟨rfl, by decide⟩, C5_fanout_counts_and_failures tr10 st10 rfl (by decide)⟩

/-- C8: per-element failures never abort a monitor pass or a fan-out:
with no shutdown signal every registry channel of an active pass gets
its status written whatever the transport does, and a fan-out always
ends in a final report accounting for every target. -/
theorem C8_failures_never_abort (tr : Transport) (sd : Nat → Bool)
    (st : BotState) (dI : Int) (tr2 : Transport) (st2 : BotState)
    (h0 : st.shuttingDown = false)
    (hact : lookupConfig st "bot_active" = some "true")
    (hne : st.channels ≠ [])
    (hdI : deleteIntervalOf st = .ok dI)
    (hsd : ∀ i, sd i = false)
    (h20 : st2.shuttingDown = false)
    (h2ne : st2.channels ≠ []) :
    (∃ evs st', check_channel_status tr sd st = .ok (evs, st') ∧
       st'.channels.length = st.channels.length ∧
       ∀ c ∈ st.channels,
         Event.statusUpdate c.channel_id ((probeOne tr dI c.channel_id).2) ∈
           evs) ∧
    (∃ rep shown ov,
       broadcast_cmd tr2 st2 =
         .report (st2.channels.map (fun c => c.channel_id)) rep shown ov ∧
       rep.total = st2.channels.length ∧
       rep.successful + rep.failed = rep.total) := by
  constructor
  · rw [check_channel_status_run tr sd st dI h0 hact hne hdI hsd]
    refine ⟨_, _, rfl, applyUpdates_length _ _, ?_⟩
    intro c hc
    exact List.mem_cons_of_mem _
      (passEvents_statusUpdate_self tr dI st.channels c hc)
  · rw [broadcast_cmd_spec tr2 st2 h20 h2ne]
    refine ⟨_, _, _, rfl, rfl, ?_⟩
    have h := filter_length_split (fun c => tr2.copyOk c.channel_id)
      st2.channels
    simp only [failedOf] at *
    omega

/-- Witness for C8: an all-failing monitor pass over one channel and the
10-target 3-failure fan-out. -/
theorem C8_witness :
    (st1.shuttingDown = false ∧ lookupConfig st1 "bot_active" = some "true" ∧
      st1.channels ≠ [] ∧ deleteIntervalOf st1 = .ok 3 ∧
      st10.shuttingDown = false ∧ st10.channels ≠ []) ∧
    ((∃ evs st', check_channel_status trFail sdNever st1 = .ok (evs, st') ∧
        st'.channels.length = st1.channels.length ∧
        ∀ c ∈ st1.channels,
          Event.statusUpdate c.channel_id
            ((probeOne trFail 3 c.channel_id).2) ∈ evs) ∧
      (∃ rep shown ov,
        broadcast_cmd tr10 st10 =
          .report (st10.channels.map (fun c => c.channel_id)) rep shown ov ∧
        rep.total = st10.channels.length ∧
        rep.successful + rep.failed = rep.total)) :=
  ⟨⟨rfl, by decide, by decide, by decide, rfl, by decide⟩,
    C8_failures_never_abort trFail sdNever st1 3 tr10 st10 rfl (by decide)
      (by decide) (by decide) (fun _ => rfl) rfl (by decide)⟩
